import Mathlib

/-!
Verification of the mortgage-calc financial calculation engine
(`src/calculations.ts`, provided as `src/unnamed/part_008`).

The engine is a library of pure functions over JavaScript numbers.  We embed
it shallowly over the exact rationals `ℚ`: every arithmetic step of the
source is translated literally, so the identities proved here are the exact
forms of the "within floating rounding ε" statements of the specification.
Dates are embedded as (year, month) pairs, the only fields the source reads
(`getFullYear` / `getMonth` / `setMonth`).

For the savings-goal calculator the claims are about IEEE special values
(NaN, Infinity) produced by unguarded division, and about the wall clock
read inside the function body.  For that function we use a dedicated
JavaScript-number type `JSNum` (a rational together with NaN and ±Infinity,
with JavaScript's arithmetic, `Math.min` / `Math.max` and comparison
semantics) and make the ambient current date an explicit `now` parameter.
-/

/-! ## Dates -/

/-- A calendar date as JavaScript exposes it to this code: year and
zero-based month (`getFullYear` / `getMonth`). -/
structure SDate where
  year : ℤ
  month : ℤ
deriving DecidableEq, Repr

/-- `setMonth` with overflow normalisation: JavaScript folds an out-of-range
month into the year using floored division. -/
def SDate.addMonths (d : SDate) (k : ℤ) : SDate :=
  ⟨d.year + (d.month + k).ediv 12, (d.month + k).emod 12⟩

/-! ## Mortgage payment (source lines 4–19) -/

/-- `calculateMortgagePayment(principal, annualRate, years)`:
standard amortization formula, with the `principal <= 0` and
`annualRate <= 0` guard branches of the source. -/
def calculateMortgagePayment (principal annualRate : ℚ) (years : ℕ) : ℚ :=
  if principal ≤ 0 then 0
  else if annualRate ≤ 0 then principal / ((years : ℚ) * 12)
  else
    let monthlyRate := annualRate / 100 / 12
    let numberOfPayments := years * 12
    principal * (monthlyRate * (1 + monthlyRate) ^ numberOfPayments) /
      ((1 + monthlyRate) ^ numberOfPayments - 1)

/-- `calculateMonthlyHousing` (source lines 22–29). -/
def calculateMonthlyHousing (mortgagePayment annualPropertyTax annualInsurance
    monthlyUtilities : ℚ) : ℚ :=
  mortgagePayment + annualPropertyTax / 12 + annualInsurance / 12 + monthlyUtilities

/-- `calculateAffordabilityPercentage` (source lines 32–35). -/
def calculateAffordabilityPercentage (monthlyHousing monthlyIncome : ℚ) : ℚ :=
  if monthlyIncome ≤ 0 then 0 else monthlyHousing / monthlyIncome * 100

/-! ## Texas property tax (source lines 42–126) -/

/-- Result of `getVeteranDisabilityExemption`: a dollar amount or the
`'full'` marker. -/
inductive VeteranExemption where
  | amount (value : ℚ)
  | full
deriving DecidableEq, Repr

/-- `getVeteranDisabilityExemption` (source lines 43–58). -/
def getVeteranDisabilityExemption (rating : ℚ) : VeteranExemption :=
  if rating = 10 then .amount 5000
  else if rating = 30 then .amount 7500
  else if rating = 50 then .amount 10000
  else if rating = 70 then .amount 12000
  else if rating = 100 then .full
  else .amount 0

/-- The `TaxExemptions` record (`src/context/CalculatorContext.tsx`). -/
structure TaxExemptions where
  homestead : Bool
  over65 : Bool
  disabled : Bool
  veteranDisability : ℚ
  localOptionalPercent : ℚ
  agriculturalExemption : Bool
  customExemptionAmount : ℚ
deriving DecidableEq, Repr

/-- Return value of `calculateExemptionTotal`. -/
structure ExemptionTotal where
  total : ℚ
  isFull : Bool
deriving DecidableEq, Repr

/-- `calculateExemptionTotal` (source lines 61–98); the sequential `total +=`
updates become a chain of lets. -/
def calculateExemptionTotal (homePrice : ℚ) (exemptions : TaxExemptions) :
    ExemptionTotal :=
  let total1 : ℚ := if exemptions.homestead then 100000 else 0
  let total2 := if exemptions.over65 || exemptions.disabled then total1 + 10000 else total1
  match getVeteranDisabilityExemption exemptions.veteranDisability with
  | .full => { total := homePrice, isFull := true }
  | .amount v =>
    let total3 := total2 + v
    let total4 :=
      if exemptions.localOptionalPercent > 0 then
        total3 + max (homePrice * (exemptions.localOptionalPercent / 100)) 5000
      else total3
    let total5 := if exemptions.agriculturalExemption then total4 + homePrice * 0.5 else total4
    let total6 :=
      if exemptions.customExemptionAmount > 0 then total5 + exemptions.customExemptionAmount
      else total5
    { total := min total6 homePrice, isFull := false }

/-- The `TaxResult` record. -/
structure TaxResult where
  assessedValue : ℚ
  totalExemptions : ℚ
  taxableValue : ℚ
  annualTax : ℚ
  monthlyTax : ℚ
  effectiveRate : ℚ
deriving DecidableEq, Repr

/-- `calculateTexasPropertyTax` (source lines 101–126). -/
def calculateTexasPropertyTax (homePrice taxRate : ℚ) (exemptions : TaxExemptions) :
    TaxResult :=
  let exemptionResult := calculateExemptionTotal homePrice exemptions
  if exemptionResult.isFull then
    { assessedValue := homePrice
      totalExemptions := homePrice
      taxableValue := 0
      annualTax := 0
      monthlyTax := 0
      effectiveRate := 0 }
  else
    let taxableValue := max 0 (homePrice - exemptionResult.total)
    let annualTax := taxableValue * (taxRate / 100)
    { assessedValue := homePrice
      totalExemptions := exemptionResult.total
      taxableValue := taxableValue
      annualTax := annualTax
      monthlyTax := annualTax / 12
      effectiveRate := if homePrice > 0 then annualTax / homePrice * 100 else 0 }

/-! ## Income scenarios and affordability (source lines 129–184) -/

/-- The `IncomeScenarios` record. -/
structure IncomeScenarios where
  fullIncome : ℚ
  conservativeIncome : ℚ
  familyPlanningIncome : ℚ
deriving DecidableEq, Repr

/-- The `affordabilityStatus` union type. -/
inductive AffordabilityStatus where
  | affordable
  | requiresVariable
  | notAffordable
deriving DecidableEq, Repr

/-- The `ScenarioResult` record. -/
structure ScenarioResult where
  downPayment : ℚ
  loanAmount : ℚ
  mortgagePayment : ℚ
  totalMonthlyHousing : ℚ
  fullPercentage : ℚ
  conservativePercentage : ℚ
  familyPercentage : ℚ
  affordabilityStatus : AffordabilityStatus
deriving DecidableEq, Repr

/-- `calculateScenario` (source lines 139–184). -/
def calculateScenario (homePrice downPayment interestRate : ℚ) (loanTerm : ℕ)
    (annualPropertyTax annualInsurance monthlyUtilities : ℚ)
    (incomeScenarios : IncomeScenarios) : ScenarioResult :=
  let loanAmount := homePrice - downPayment
  let mortgagePayment := calculateMortgagePayment loanAmount interestRate loanTerm
  let totalMonthlyHousing :=
    calculateMonthlyHousing mortgagePayment annualPropertyTax annualInsurance monthlyUtilities
  let fullPercentage :=
    calculateAffordabilityPercentage totalMonthlyHousing incomeScenarios.fullIncome
  let conservativePercentage :=
    calculateAffordabilityPercentage totalMonthlyHousing incomeScenarios.conservativeIncome
  let familyPercentage :=
    calculateAffordabilityPercentage totalMonthlyHousing incomeScenarios.familyPlanningIncome
  let affordabilityStatus :=
    if familyPercentage ≤ 25 then AffordabilityStatus.affordable
    else if conservativePercentage ≤ 25 then AffordabilityStatus.requiresVariable
    else AffordabilityStatus.notAffordable
  { downPayment := downPayment
    loanAmount := loanAmount
    mortgagePayment := mortgagePayment
    totalMonthlyHousing := totalMonthlyHousing
    fullPercentage := fullPercentage
    conservativePercentage := conservativePercentage
    familyPercentage := familyPercentage
    affordabilityStatus := affordabilityStatus }

/-! ## Amortization schedule (source lines 199–267) -/

/-- The `AmortizationRow` record. -/
structure AmortizationRow where
  month : ℕ
  year : ℕ
  payment : ℚ
  principal : ℚ
  interest : ℚ
  balance : ℚ
  cumulativeInterest : ℚ
  cumulativePrincipal : ℚ
deriving DecidableEq, Repr

/-- The `AmortizationSchedule` record. -/
structure AmortizationSchedule where
  rows : List AmortizationRow
  totalPayments : ℚ
  totalInterest : ℚ
  totalPrincipal : ℚ
  payoffDate : SDate
  monthlyPayment : ℚ
deriving DecidableEq, Repr

/-- The loop body of `generateAmortizationSchedule` (source lines 234–254):
`k` months remain, the current month number is `m`, and `balance`,
`cumulativeInterest`, `cumulativePrincipal` are the loop state.  The year of
a row is `⌈month / 12⌉ = (month + 11) / 12` in natural division. -/
def amortRows (monthlyPayment monthlyRate : ℚ) :
    ℕ → ℕ → ℚ → ℚ → ℚ → List AmortizationRow
  | 0, _, _, _, _ => []
  | k + 1, m, balance, cumulativeInterest, cumulativePrincipal =>
    let interestPayment := balance * monthlyRate
    let principalPayment := monthlyPayment - interestPayment
    let balance2 := max 0 (balance - principalPayment)
    let cumulativeInterest2 := cumulativeInterest + interestPayment
    let cumulativePrincipal2 := cumulativePrincipal + principalPayment
    { month := m
      year := (m + 11) / 12
      payment := monthlyPayment
      principal := principalPayment
      interest := interestPayment
      balance := balance2
      cumulativeInterest := cumulativeInterest2
      cumulativePrincipal := cumulativePrincipal2 } ::
      amortRows monthlyPayment monthlyRate k (m + 1) balance2 cumulativeInterest2
        cumulativePrincipal2

/-- `generateAmortizationSchedule` (source lines 219–267).  `totalInterest`
is the final value of the `cumulativeInterest` accumulator, i.e. the field
stored in the last row (0 when there are no rows). -/
def generateAmortizationSchedule (principal annualRate : ℚ) (years : ℕ)
    (startDate : SDate) : AmortizationSchedule :=
  let monthlyPayment := calculateMortgagePayment principal annualRate years
  let monthlyRate := annualRate / 100 / 12
  let numberOfPayments := years * 12
  let rows := amortRows monthlyPayment monthlyRate numberOfPayments 1 principal 0 0
  { rows := rows
    totalPayments := monthlyPayment * (numberOfPayments : ℚ)
    totalInterest := ((rows.getLast?).map AmortizationRow.cumulativeInterest).getD 0
    totalPrincipal := principal
    payoffDate := startDate.addMonths (numberOfPayments : ℤ)
    monthlyPayment := monthlyPayment }

/-! ## PMI (source lines 301–356) -/

/-- The `PMIResult` record. -/
structure PMIResult where
  required : Bool
  monthlyPMI : ℚ
  annualPMI : ℚ
  ltv : ℚ
  monthsUntilRemoval : Option ℕ
  totalPMICost : ℚ
deriving DecidableEq, Repr

/-- `calculatePMI` (source lines 310–356).  The `for ... break` scan for the
first row with balance at or below 80% LTV is `List.find?`. -/
def calculatePMI (loanAmount homePrice annualPMIRate : ℚ)
    (amortization : Option AmortizationSchedule) : PMIResult :=
  let ltv := loanAmount / homePrice * 100
  if ltv ≤ 80 then
    { required := false
      monthlyPMI := 0
      annualPMI := 0
      ltv := ltv
      monthsUntilRemoval := none
      totalPMICost := 0 }
  else
    let annualPMI := loanAmount * (annualPMIRate / 100)
    let monthlyPMI := annualPMI / 12
    let found := amortization.bind fun sched =>
      sched.rows.find? fun row => decide (row.balance ≤ homePrice * 0.8)
    { required := true
      monthlyPMI := monthlyPMI
      annualPMI := annualPMI
      ltv := ltv
      monthsUntilRemoval := found.map AmortizationRow.month
      totalPMICost := match found with
        | some row => monthlyPMI * (row.month : ℚ)
        | none => 0 }

/-! ## DTI (source lines 437–529) -/

/-- The `DebtObligations` record. -/
structure DebtObligations where
  carPayments : ℚ
  studentLoans : ℚ
  creditCards : ℚ
  otherDebt : ℚ
  childSupport : ℚ
deriving DecidableEq, Repr

/-- The three-valued per-band status. -/
inductive BandStatus where
  | good
  | acceptable
  | high
deriving DecidableEq, Repr

/-- The `qualificationStatus` union type. -/
inductive QualificationStatus where
  | qualified
  | marginal
  | notQualified
deriving DecidableEq, Repr

/-- The `DTIResult` record. -/
structure DTIResult where
  frontEndRatio : ℚ
  backEndRatio : ℚ
  frontEndStatus : BandStatus
  backEndStatus : BandStatus
  maxHousingPayment28 : ℚ
  maxTotalDebt36 : ℚ
  qualificationStatus : QualificationStatus
  totalMonthlyDebt : ℚ
deriving DecidableEq, Repr

/-- The local `getFrontEndStatus` closure of `calculateDTI`
(source lines 490–494). -/
def getFrontEndStatus (x : ℚ) : BandStatus :=
  if x ≤ 28 then .good else if x ≤ 31 then .acceptable else .high

/-- The local `getBackEndStatus` closure of `calculateDTI`
(source lines 496–500). -/
def getBackEndStatus (x : ℚ) : BandStatus :=
  if x ≤ 36 then .good else if x ≤ 43 then .acceptable else .high

/-- `calculateDTI` (source lines 456–529). -/
def calculateDTI (grossMonthlyIncome housingCosts : ℚ) (otherDebt : DebtObligations) :
    DTIResult :=
  if grossMonthlyIncome ≤ 0 then
    { frontEndRatio := 0
      backEndRatio := 0
      frontEndStatus := .good
      backEndStatus := .good
      maxHousingPayment28 := 0
      maxTotalDebt36 := 0
      qualificationStatus := .notQualified
      totalMonthlyDebt := housingCosts }
  else
    let totalOtherDebt :=
      otherDebt.carPayments + otherDebt.studentLoans + otherDebt.creditCards +
        otherDebt.otherDebt + otherDebt.childSupport
    let totalMonthlyDebt := housingCosts + totalOtherDebt
    let frontEndRatio := housingCosts / grossMonthlyIncome * 100
    let backEndRatio := totalMonthlyDebt / grossMonthlyIncome * 100
    let qualificationStatus :=
      if frontEndRatio ≤ 28 ∧ backEndRatio ≤ 36 then QualificationStatus.qualified
      else if frontEndRatio ≤ 31 ∧ backEndRatio ≤ 43 then QualificationStatus.marginal
      else QualificationStatus.notQualified
    { frontEndRatio := frontEndRatio
      backEndRatio := backEndRatio
      frontEndStatus := getFrontEndStatus frontEndRatio
      backEndStatus := getBackEndStatus backEndRatio
      maxHousingPayment28 := grossMonthlyIncome * 0.28
      maxTotalDebt36 := grossMonthlyIncome * 0.36
      qualificationStatus := qualificationStatus
      totalMonthlyDebt := totalMonthlyDebt }

/-! ## Stress testing (source lines 535–584) -/

/-- The `StressTestResult` record. -/
structure StressTestResult where
  rate : ℚ
  rateIncrease : ℚ
  monthlyPayment : ℚ
  totalMonthlyHousing : ℚ
  dtiResult : DTIResult
  affordabilityStatus : AffordabilityStatus
deriving DecidableEq, Repr

/-- `stressTestScenario` (source lines 544–584). -/
def stressTestScenario (principal baseRate : ℚ) (loanTerm : ℕ)
    (annualPropertyTax annualInsurance monthlyUtilities grossMonthlyIncome : ℚ)
    (otherDebt : DebtObligations) (rateIncrements : List ℚ) : List StressTestResult :=
  rateIncrements.map fun increment =>
    let newRate := baseRate + increment
    let monthlyPayment := calculateMortgagePayment principal newRate loanTerm
    let totalMonthlyHousing :=
      calculateMonthlyHousing monthlyPayment annualPropertyTax annualInsurance monthlyUtilities
    let dtiResult := calculateDTI grossMonthlyIncome totalMonthlyHousing otherDebt
    let affordabilityStatus :=
      if dtiResult.frontEndRatio ≤ 28 then AffordabilityStatus.affordable
      else if dtiResult.frontEndRatio ≤ 36 then AffordabilityStatus.requiresVariable
      else AffordabilityStatus.notAffordable
    { rate := newRate
      rateIncrease := increment
      monthlyPayment := monthlyPayment
      totalMonthlyHousing := totalMonthlyHousing
      dtiResult := dtiResult
      affordabilityStatus := affordabilityStatus }

/-! ## JavaScript numbers for the savings-goal calculator

`calculateSavingsGoal` is the one function whose claims concern IEEE special
values and the ambient clock, so it is embedded over a JavaScript-number
type: an exact rational together with `NaN` and the two infinities.  Finite
arithmetic is exact (the rounding of binary64 is not modelled; every input
exercised by the theorems below is exactly representable), the special
values follow IEEE-754 as JavaScript exposes them. -/

/-- A JavaScript number: finite (exact rational), `NaN`, `Infinity` or
`-Infinity`. -/
inductive JSNum where
  | num (q : ℚ)
  | nan
  | inf
  | ninf
deriving DecidableEq, Repr

/-- JavaScript `+`. -/
def JSNum.add : JSNum → JSNum → JSNum
  | num a, num b => num (a + b)
  | nan, _ => nan
  | _, nan => nan
  | inf, ninf => nan
  | ninf, inf => nan
  | inf, _ => inf
  | _, inf => inf
  | ninf, _ => ninf
  | _, ninf => ninf

/-- JavaScript unary minus. -/
def JSNum.neg : JSNum → JSNum
  | num a => num (-a)
  | nan => nan
  | inf => ninf
  | ninf => inf

/-- JavaScript `-`. -/
def JSNum.sub (a b : JSNum) : JSNum := a.add b.neg

/-- JavaScript `*`. -/
def JSNum.mul : JSNum → JSNum → JSNum
  | num a, num b => num (a * b)
  | nan, _ => nan
  | _, nan => nan
  | inf, inf => inf
  | ninf, ninf => inf
  | inf, ninf => ninf
  | ninf, inf => ninf
  | inf, num b => if 0 < b then inf else if b < 0 then ninf else nan
  | num a, inf => if 0 < a then inf else if a < 0 then ninf else nan
  | ninf, num b => if 0 < b then ninf else if b < 0 then inf else nan
  | num a, ninf => if 0 < a then ninf else if a < 0 then inf else nan

/-- JavaScript `/` (the dividend 0 of the source is `+0`, so a positive
number divided by it is `Infinity`). -/
def JSNum.div : JSNum → JSNum → JSNum
  | num a, num b =>
    if b = 0 then (if a = 0 then nan else if 0 < a then inf else ninf) else num (a / b)
  | nan, _ => nan
  | _, nan => nan
  | inf, inf => nan
  | inf, ninf => nan
  | ninf, inf => nan
  | ninf, ninf => nan
  | inf, num b => if 0 ≤ b then inf else ninf
  | ninf, num b => if 0 ≤ b then ninf else inf
  | num _, inf => num 0
  | num _, ninf => num 0

/-- JavaScript `Math.max` (returns `NaN` when an argument is `NaN`). -/
def JSNum.jmax : JSNum → JSNum → JSNum
  | nan, _ => nan
  | _, nan => nan
  | inf, _ => inf
  | _, inf => inf
  | ninf, b => b
  | a, ninf => a
  | num a, num b => num (max a b)

/-- JavaScript `Math.min` (returns `NaN` when an argument is `NaN`). -/
def JSNum.jmin : JSNum → JSNum → JSNum
  | nan, _ => nan
  | _, nan => nan
  | ninf, _ => ninf
  | _, ninf => ninf
  | inf, b => b
  | a, inf => a
  | num a, num b => num (min a b)

/-- The JavaScript comparison `x > 0` (false for `NaN`). -/
def JSNum.gtZero : JSNum → Bool
  | num a => decide (0 < a)
  | inf => true
  | _ => false

/-- JavaScript `Math.ceil` on a finite number. -/
def JSNum.jceil : JSNum → JSNum
  | num a => num (⌈a⌉ : ℤ)
  | x => x

/-! ## Savings goal (source lines 590–654) -/

/-- The `SavingsGoalResult` record.  `monthsToGoal` and `monthlyRequired`
are `number | null`; `targetDate` is `Date | null`. -/
structure SavingsGoalResult where
  targetAmount : JSNum
  downPaymentTarget : JSNum
  closingCostsTarget : JSNum
  reservesTarget : JSNum
  currentProgress : JSNum
  remainingNeeded : JSNum
  monthsToGoal : Option JSNum
  targetDate : Option SDate
  monthlyRequired : Option JSNum
  progressPercentage : JSNum
deriving DecidableEq, Repr

/-- `calculateSavingsGoal` (source lines 603–654).  The source reads the
wall clock (`new Date()`) in two places — to anchor the computed target date
and to count the months until a caller-supplied target date — so the current
date is made an explicit `now` parameter here. -/
def calculateSavingsGoal (now : SDate) (homePrice targetDownPaymentPercent
    closingCosts reserveMonths monthlyHousingCost currentSavings monthlySavings : JSNum)
    (targetDate : Option SDate) : SavingsGoalResult :=
  let downPaymentTarget := homePrice.mul (targetDownPaymentPercent.div (JSNum.num 100))
  let reservesTarget := monthlyHousingCost.mul reserveMonths
  let targetAmount := (downPaymentTarget.add closingCosts).add reservesTarget
  let remainingNeeded := JSNum.jmax (JSNum.num 0) (targetAmount.sub currentSavings)
  let progressPercentage :=
    JSNum.jmin (JSNum.num 100) ((currentSavings.div targetAmount).mul (JSNum.num 100))
  let ratio := remainingNeeded.div monthlySavings
  let monthsToGoal : Option JSNum :=
    if remainingNeeded.gtZero && monthlySavings.gtZero then some ratio.jceil else none
  let calculatedTargetDate : Option SDate :=
    if remainingNeeded.gtZero && monthlySavings.gtZero then
      match ratio with
      | JSNum.num a => some (now.addMonths ⌈a⌉)
      | _ => none
    else none
  let monthlyRequired : Option JSNum :=
    if remainingNeeded.gtZero then
      match targetDate with
      | some td =>
        let monthsUntilTarget : ℤ := (td.year - now.year) * 12 + (td.month - now.month)
        if 0 < monthsUntilTarget then some (remainingNeeded.div (JSNum.num (monthsUntilTarget : ℚ)))
        else none
      | none => none
    else none
  { targetAmount := targetAmount
    downPaymentTarget := downPaymentTarget
    closingCostsTarget := closingCosts
    reservesTarget := reservesTarget
    currentProgress := currentSavings
    remainingNeeded := remainingNeeded
    monthsToGoal := monthsToGoal
    targetDate := match targetDate with
      | some td => some td
      | none => calculatedTargetDate
    monthlyRequired := monthlyRequired
    progressPercentage := progressPercentage }

/-! ## Basic facts about the branch structure -/

/-- Characterisation of `calculateAffordabilityPercentage` as the spec words it. -/
theorem calculateAffordabilityPercentage_def (monthlyHousing monthlyIncome : ℚ) :
    calculateAffordabilityPercentage monthlyHousing monthlyIncome =
      if monthlyIncome ≤ 0 then 0 else monthlyHousing / monthlyIncome * 100 := rfl

/-- C3: for every input to `calculateScenario`, the affordability verdict
follows the tie-break order affordable / requires-variable / not-affordable
on the family-planning and conservative percentages against the 25 %
threshold; each percentage is `totalMonthlyHousing / incomeBasis × 100`,
and 0 when that income basis is ≤ 0; in particular a scenario whose
family-planning income is ≤ 0 is classified affordable. -/
theorem calculateScenario_affordability_verdict (homePrice downPayment interestRate : ℚ)
    (loanTerm : ℕ) (annualPropertyTax annualInsurance monthlyUtilities : ℚ)
    (inc : IncomeScenarios) :
    (calculateScenario homePrice downPayment interestRate loanTerm annualPropertyTax
        annualInsurance monthlyUtilities inc).affordabilityStatus =
      (if (calculateScenario homePrice downPayment interestRate loanTerm annualPropertyTax
            annualInsurance monthlyUtilities inc).familyPercentage ≤ 25 then
          AffordabilityStatus.affordable
        else if (calculateScenario homePrice downPayment interestRate loanTerm annualPropertyTax
            annualInsurance monthlyUtilities inc).conservativePercentage ≤ 25 then
          AffordabilityStatus.requiresVariable
        else AffordabilityStatus.notAffordable) ∧
    (∀ basis : ℚ,
      calculateAffordabilityPercentage
          (calculateScenario homePrice downPayment interestRate loanTerm annualPropertyTax
            annualInsurance monthlyUtilities inc).totalMonthlyHousing basis =
        if basis ≤ 0 then 0
        else (calculateScenario homePrice downPayment interestRate loanTerm annualPropertyTax
            annualInsurance monthlyUtilities inc).totalMonthlyHousing / basis * 100) ∧
    (calculateScenario homePrice downPayment interestRate loanTerm annualPropertyTax
        annualInsurance monthlyUtilities inc).familyPercentage =
      calculateAffordabilityPercentage
        (calculateScenario homePrice downPayment interestRate loanTerm annualPropertyTax
          annualInsurance monthlyUtilities inc).totalMonthlyHousing inc.familyPlanningIncome ∧
    (calculateScenario homePrice downPayment interestRate loanTerm annualPropertyTax
        annualInsurance monthlyUtilities inc).conservativePercentage =
      calculateAffordabilityPercentage
        (calculateScenario homePrice downPayment interestRate loanTerm annualPropertyTax
          annualInsurance monthlyUtilities inc).totalMonthlyHousing inc.conservativeIncome ∧
    (inc.familyPlanningIncome ≤ 0 →
      (calculateScenario homePrice downPayment interestRate loanTerm annualPropertyTax
          annualInsurance monthlyUtilities inc).affordabilityStatus =
        AffordabilityStatus.affordable) := by
  refine ⟨rfl, fun basis => rfl, rfl, rfl, fun h0 => ?_⟩
  show (if calculateAffordabilityPercentage _ inc.familyPlanningIncome ≤ 25 then
      AffordabilityStatus.affordable else _) = AffordabilityStatus.affordable
  rw [calculateAffordabilityPercentage, if_pos h0, if_pos (by norm_num)]

/-- Witness for C3: a scenario with family-planning income 0 comes out
affordable. -/
theorem calculateScenario_affordability_verdict_witness :
    (0 : ℚ) ≤ 0 ∧

      (calculateScenario 100000 20000 6 30 2000 1000 200
          ⟨5000, 3000, 0⟩).affordabilityStatus = AffordabilityStatus.affordable :=
  ⟨le_refl 0,
    (calculateScenario_affordability_verdict 100000 20000 6 30 2000 1000 200
      ⟨5000, 3000, 0⟩).2.2.2.2 (le_refl 0)⟩

/-- C4: for positive gross monthly income, `calculateDTI` returns
qualified iff front-end ≤ 28 and back-end ≤ 36, marginal iff not qualified
and front-end ≤ 31 and back-end ≤ 43, else not-qualified; a front-end ratio
of exactly 28 gets status good, and one strictly above 28 but at most 31
gets status acceptable. -/
theorem calculateDTI_qualification (grossMonthlyIncome housingCosts : ℚ)
    (debts : DebtObligations) (h : 0 < grossMonthlyIncome) :
    ((calculateDTI grossMonthlyIncome housingCosts debts).qualificationStatus =
        QualificationStatus.qualified ↔
      ((calculateDTI grossMonthlyIncome housingCosts debts).frontEndRatio ≤ 28 ∧
        (calculateDTI grossMonthlyIncome housingCosts debts).backEndRatio ≤ 36)) ∧
    ((calculateDTI grossMonthlyIncome housingCosts debts).qualificationStatus =
        QualificationStatus.marginal ↔
      (¬((calculateDTI grossMonthlyIncome housingCosts debts).frontEndRatio ≤ 28 ∧
          (calculateDTI grossMonthlyIncome housingCosts debts).backEndRatio ≤ 36) ∧
        (calculateDTI grossMonthlyIncome housingCosts debts).frontEndRatio ≤ 31 ∧
        (calculateDTI grossMonthlyIncome housingCosts debts).backEndRatio ≤ 43)) ∧
    ((calculateDTI grossMonthlyIncome housingCosts debts).qualificationStatus =
        QualificationStatus.notQualified ↔
      (¬((calculateDTI grossMonthlyIncome housingCosts debts).frontEndRatio ≤ 28 ∧
          (calculateDTI grossMonthlyIncome housingCosts debts).backEndRatio ≤ 36) ∧
        ¬((calculateDTI grossMonthlyIncome housingCosts debts).frontEndRatio ≤ 31 ∧
          (calculateDTI grossMonthlyIncome housingCosts debts).backEndRatio ≤ 43))) ∧
    ((calculateDTI grossMonthlyIncome housingCosts debts).frontEndRatio = 28 →
      (calculateDTI grossMonthlyIncome housingCosts debts).frontEndStatus = BandStatus.good) ∧
    (28 < (calculateDTI grossMonthlyIncome housingCosts debts).frontEndRatio →
      (calculateDTI grossMonthlyIncome housingCosts debts).frontEndRatio ≤ 31 →
      (calculateDTI grossMonthlyIncome housingCosts debts).frontEndStatus =
        BandStatus.acceptable) := by
  simp only [calculateDTI, if_neg (not_le.mpr h)]
  set front := housingCosts / grossMonthlyIncome * 100 with hfront
  set back :=
    (housingCosts + (debts.carPayments + debts.studentLoans + debts.creditCards +
      debts.otherDebt + debts.childSupport)) / grossMonthlyIncome * 100 with hback
  by_cases h1 : front ≤ 28 ∧ back ≤ 36 <;> by_cases h2 : front ≤ 31 ∧ back ≤ 43 <;>
    simp only [if_pos, if_neg, h1, h2, if_true, if_false] <;>
    constructor <;>
    simp_all [getFrontEndStatus]

/-- Witness for C4: at income 100 and housing 28 the front-end ratio is
exactly 28, the borrower is qualified-eligible and the front-end status is
good. -/
theorem calculateDTI_qualification_witness :
    (0 : ℚ) < 100 ∧
      (calculateDTI 100 28 ⟨0, 0, 0, 0, 0⟩).frontEndStatus = BandStatus.good :=
  ⟨by norm_num,
    (calculateDTI_qualification 100 28 ⟨0, 0, 0, 0, 0⟩ (by norm_num)).2.2.2.1
      (by norm_num [calculateDTI])⟩

/-- C5: a 100 % veteran disability rating short-circuits
`calculateTexasPropertyTax`: the annual and monthly tax and the taxable
value are 0 and the total exemption equals the home price, regardless of
every other exemption flag or amount. -/
theorem calculateTexasPropertyTax_veteranFull (homePrice taxRate : ℚ)
    (exemptions : TaxExemptions) (h : exemptions.veteranDisability = 100) :
    calculateTexasPropertyTax homePrice taxRate exemptions =
      { assessedValue := homePrice
        totalExemptions := homePrice
        taxableValue := 0
        annualTax := 0
        monthlyTax := 0
        effectiveRate := 0 } := by
  rw [calculateTexasPropertyTax, calculateExemptionTotal, getVeteranDisabilityExemption, h]
  norm_num

/-- Witness for C5: full veteran exemption with every other flag set. -/
theorem calculateTexasPropertyTax_veteranFull_witness :
    (TaxExemptions.mk true true true 100 10 true 5000).veteranDisability = 100 ∧
      calculateTexasPropertyTax 300000 2 ⟨true, true, true, 100, 10, true, 5000⟩ =
        { assessedValue := 300000
          totalExemptions := 300000
          taxableValue := 0
          annualTax := 0
          monthlyTax := 0
          effectiveRate := 0 } :=
  ⟨rfl, calculateTexasPropertyTax_veteranFull 300000 2 ⟨true, true, true, 100, 10, true, 5000⟩ rfl⟩

/-- C6: with over-65 and disabled both set and every other exemption
zero/false, the $10,000 credit is applied exactly once — the result is the
same as with over-65 alone, the total exemption is `min 10000 homePrice`
for every home price and tax rate, and on the concrete input
(200000, 2 %) it is 10000, not 20000. -/
theorem calculateTexasPropertyTax_over65_disabled_once (homePrice taxRate : ℚ) :
    calculateTexasPropertyTax homePrice taxRate ⟨false, true, true, 0, 0, false, 0⟩ =
      calculateTexasPropertyTax homePrice taxRate ⟨false, true, false, 0, 0, false, 0⟩ ∧
    (calculateTexasPropertyTax homePrice taxRate
        ⟨false, true, true, 0, 0, false, 0⟩).totalExemptions = min 10000 homePrice ∧
    (calculateTexasPropertyTax 200000 2
        ⟨false, true, true, 0, 0, false, 0⟩).totalExemptions = 10000 := by
  refine ⟨rfl, ?_, ?_⟩ <;>
    norm_num [calculateTexasPropertyTax, calculateExemptionTotal, getVeteranDisabilityExemption]

/-- C8: for positive home price, `calculatePMI` is not required and all
PMI amounts are zero whenever LTV = loanAmount / homePrice × 100 is at
most 80 (the boundary included); above 80 it is required with
annualPMI = loanAmount × rate / 100 and monthlyPMI = annualPMI / 12. -/
theorem calculatePMI_ltv_threshold (loanAmount homePrice annualPMIRate : ℚ)
    (amortization : Option AmortizationSchedule) (h : 0 < homePrice) :
    (calculatePMI loanAmount homePrice annualPMIRate amortization).ltv =
      loanAmount / homePrice * 100 ∧
    (loanAmount / homePrice * 100 ≤ 80 →
      (calculatePMI loanAmount homePrice annualPMIRate amortization).required = false ∧
      (calculatePMI loanAmount homePrice annualPMIRate amortization).monthlyPMI = 0 ∧
      (calculatePMI loanAmount homePrice annualPMIRate amortization).annualPMI = 0 ∧
      (calculatePMI loanAmount homePrice annualPMIRate amortization).totalPMICost = 0) ∧
    (80 < loanAmount / homePrice * 100 →
      (calculatePMI loanAmount homePrice annualPMIRate amortization).required = true ∧
      (calculatePMI loanAmount homePrice annualPMIRate amortization).annualPMI =
        loanAmount * (annualPMIRate / 100) ∧
      (calculatePMI loanAmount homePrice annualPMIRate amortization).monthlyPMI =
        loanAmount * (annualPMIRate / 100) / 12) := by
  refine ⟨?_, fun hle => ?_, fun hgt => ?_⟩
  · rw [calculatePMI]
    split <;> rfl
  · rw [calculatePMI]
    simp only [if_pos hle]
    exact ⟨trivial, trivial, trivial, trivial⟩
  · rw [calculatePMI]
    simp only [if_neg (not_le.mpr hgt)]
    exact ⟨trivial, trivial, trivial⟩

/-- Witness for C8: the boundary case LTV = 80 exactly — 240000 on a
300000 home is not required to carry PMI. -/
theorem calculatePMI_ltv_threshold_witness :
    (0 : ℚ) < 300000 ∧
      (calculatePMI 240000 300000 0.5 none).required = false ∧
      (calculatePMI 240000 300000 0.5 none).monthlyPMI = 0 ∧
      (calculatePMI 240000 300000 0.5 none).annualPMI = 0 ∧
      (calculatePMI 240000 300000 0.5 none).totalPMICost = 0 :=
  ⟨by norm_num,
    (calculatePMI_ltv_threshold 240000 300000 0.5 none (by norm_num)).2.1 (by norm_num)⟩

/-- C10: `calculateSavingsGoal` does not guard the division
`currentSavings / targetAmount`: with home price, closing costs and monthly
housing cost all 0 the target amount is 0, and the returned
progressPercentage is NaN (0/0) when current savings are 0, and 100
(via `min(100, Infinity)`) when current savings are positive. -/
theorem calculateSavingsGoal_divisionByZero :
    (calculateSavingsGoal ⟨2026, 0⟩ (.num 0) (.num 20) (.num 0) (.num 3) (.num 0) (.num 0)
        (.num 0) none).targetAmount = JSNum.num 0 ∧
    (calculateSavingsGoal ⟨2026, 0⟩ (.num 0) (.num 20) (.num 0) (.num 3) (.num 0) (.num 0)
        (.num 0) none).progressPercentage = JSNum.nan ∧
    (calculateSavingsGoal ⟨2026, 0⟩ (.num 0) (.num 20) (.num 0) (.num 3) (.num 0) (.num 100)
        (.num 0) none).targetAmount = JSNum.num 0 ∧
    (calculateSavingsGoal ⟨2026, 0⟩ (.num 0) (.num 20) (.num 0) (.num 3) (.num 0) (.num 100)
        (.num 0) none).progressPercentage = JSNum.num 100 := by
  refine ⟨?_, ?_, ?_, ?_⟩ <;>
    norm_num [calculateSavingsGoal, JSNum.mul, JSNum.div, JSNum.add, JSNum.sub, JSNum.neg,
      JSNum.jmax, JSNum.jmin, JSNum.gtZero]

/-- Counterexample to C9 as stated: two invocations of
`calculateSavingsGoal` with every declared parameter identical — the
target date is supplied explicitly — return different results when the
ambient current date differs, because the source reads `new Date()` to
count the months until the target date.  On 2026-12 the monthly amount
required to reach a 2027-01 goal is 20000; one month later the months-
until-target guard fails and `monthlyRequired` is null. -/
theorem calculateSavingsGoal_clock_dependent :
    calculateSavingsGoal ⟨2026, 11⟩ (.num 100000) (.num 20) (.num 0) (.num 0) (.num 0)
        (.num 0) (.num 0) (some ⟨2027, 0⟩) ≠
      calculateSavingsGoal ⟨2027, 0⟩ (.num 100000) (.num 20) (.num 0) (.num 0) (.num 0)
        (.num 0) (.num 0) (some ⟨2027, 0⟩) := by
  norm_num [calculateSavingsGoal, JSNum.mul, JSNum.div, JSNum.add, JSNum.sub, JSNum.neg,
    JSNum.jmax, JSNum.jmin, JSNum.gtZero, SavingsGoalResult.mk.injEq]
  exact Option.some_ne_none _

/-- C9 (amended): every engine function is a pure function of its explicit
arguments together with the ambient current date, so re-invocation with
identical inputs and an unchanged clock is bit-identical; for
`calculateSavingsGoal` the current date is genuinely part of the input even
when a target date is supplied. -/
theorem engine_deterministic :
    (∀ (principal annualRate : ℚ) (years : ℕ) (startDate : SDate),
      generateAmortizationSchedule principal annualRate years startDate =
        generateAmortizationSchedule principal annualRate years startDate) ∧
    (∀ (now : SDate) (homePrice targetDownPaymentPercent closingCosts reserveMonths
        monthlyHousingCost currentSavings monthlySavings : JSNum)
        (targetDate : Option SDate),
      calculateSavingsGoal now homePrice targetDownPaymentPercent closingCosts reserveMonths
          monthlyHousingCost currentSavings monthlySavings targetDate =
        calculateSavingsGoal now homePrice targetDownPaymentPercent closingCosts reserveMonths
          monthlyHousingCost currentSavings monthlySavings targetDate) :=
  ⟨fun _ _ _ _ => rfl, fun _ _ _ _ _ _ _ _ _ => rfl⟩

/-! ## Amortization theory

The loop of `generateAmortizationSchedule` updates the balance by
`balance := max 0 (balance - (payment - balance * monthlyRate))`.  `ubal` is
the same recurrence without the clamp; whenever `ubal` stays nonnegative the
clamp never fires and the two coincide, and all the schedule invariants
reduce to facts about `ubal`. -/

/-- The unclamped balance recurrence:
`ubal pay rate b (k+1) = ubal pay rate b k * (1 + rate) - pay`. -/
def ubal (pay rate b : ℚ) : ℕ → ℚ
  | 0 => b
  | k + 1 => ubal pay rate b k * (1 + rate) - pay

lemma ubal_shift (pay rate b : ℚ) (k : ℕ) :
    ubal pay rate (ubal pay rate b 1) k = ubal pay rate b (k + 1) := by
  induction k with
  | zero => rfl
  | succ k ih =>
    show ubal pay rate (ubal pay rate b 1) k * (1 + rate) - pay = ubal pay rate b (k + 1 + 1)
    rw [ih]
    rfl

lemma amortRows_length (pay rate : ℚ) (k : ℕ) :
    ∀ (m : ℕ) (b ci cp : ℚ), (amortRows pay rate k m b ci cp).length = k := by
  induction k with
  | zero => intro m b ci cp; rfl
  | succ k ih => intro m b ci cp; rw [amortRows]; simp [ih]

/-- Every row of the loop has a nonnegative (clamped) balance, carries the
monthly payment in its `payment` field, and splits that payment exactly into
`principal + interest`. -/
lemma amortRows_basic (pay rate : ℚ) (k : ℕ) :
    ∀ (m : ℕ) (b ci cp : ℚ) (r : AmortizationRow),
      r ∈ amortRows pay rate k m b ci cp →
      0 ≤ r.balance ∧ r.payment = pay ∧ r.principal + r.interest = pay := by
  induction k with
  | zero => intro m b ci cp r hr; cases hr
  | succ k ih =>
    intro m b ci cp r hr
    rw [amortRows] at hr
    rcases List.mem_cons.mp hr with h | h
    · subst h
      refine ⟨le_max_left 0 _, rfl, ?_⟩
      show pay - b * rate + b * rate = pay
      ring
    · exact ih _ _ _ _ r h

/-- Master lemma: as long as the unclamped recurrence stays nonnegative, the
clamp never fires, the principal portions telescope, and the `i`-th row of
the loop stores balance `ubal (i+1)`. -/
lemma amortRows_spec (pay rate : ℚ) (k : ℕ) :
    ∀ (m : ℕ) (b ci cp : ℚ),
      (∀ j, j ≤ k → 0 ≤ ubal pay rate b j) →
      (((amortRows pay rate k m b ci cp).map AmortizationRow.principal).sum =
          b - ubal pay rate b k) ∧
      (∀ (i : ℕ) (r : AmortizationRow),
        (amortRows pay rate k m b ci cp)[i]? = some r →
          r.balance = ubal pay rate b (i + 1)) := by
  induction k with
  | zero =>
    intro m b ci cp _
    refine ⟨by simp [amortRows, ubal], fun i r hr => ?_⟩
    rw [amortRows] at hr
    simp at hr
  | succ k ih =>
    intro m b ci cp H
    have h1 : 0 ≤ ubal pay rate b 1 := H 1 (by omega)
    have hb1 : b - (pay - b * rate) = ubal pay rate b 1 := by rw [ubal, ubal]; ring
    have hmax : max 0 (b - (pay - b * rate)) = ubal pay rate b 1 := by
      rw [hb1]; exact max_eq_right h1
    have H' : ∀ j, j ≤ k → 0 ≤ ubal pay rate (ubal pay rate b 1) j := fun j hj => by
      rw [ubal_shift]; exact H (j + 1) (by omega)
    obtain ⟨ihsum, ihidx⟩ := ih (m + 1) (ubal pay rate b 1) (ci + b * rate)
      (cp + (pay - b * rate)) H'
    constructor
    · rw [amortRows]
      simp only [hmax, List.map_cons, List.sum_cons, ihsum, ubal_shift]
      rw [ubal, ubal]
      ring
    · intro i r hr
      rw [amortRows] at hr
      simp only [hmax] at hr
      match i, hr with
      | 0, hr =>
        simp only [List.getElem?_cons_zero, Option.some.injEq] at hr
        rw [← hr]
      | i + 1, hr =>
        simp only [List.getElem?_cons_succ] at hr
        rw [ihidx i r hr, ubal_shift]

/-- With payment 0 and opening balance 0 the balance stays 0 forever
(the `principal ≤ 0` degenerate case). -/
lemma ubal_zero (rate : ℚ) (k : ℕ) : ubal 0 rate 0 k = 0 := by
  induction k with
  | zero => rfl
  | succ k ih => rw [ubal, ih]; ring

/-- Straight-line closed form at zero monthly rate. -/
lemma ubal_rate_zero (pay b : ℚ) (k : ℕ) : ubal pay 0 b k = b - k * pay := by
  induction k with
  | zero => simp [ubal]
  | succ k ih => rw [ubal, ih]; push_cast; ring

/-- Annuity closed form: with the standard payment
`P·m·(1+m)^n / ((1+m)^n − 1)` the unclamped balance after `k` months is
`P·((1+m)^n − (1+m)^k) / ((1+m)^n − 1)`. -/
lemma ubal_annuity (P m : ℚ) (n : ℕ) (hm : 0 < m) (hn : n ≠ 0) (k : ℕ) :
    ubal (P * (m * (1 + m) ^ n) / ((1 + m) ^ n - 1)) m P k =
      P * ((1 + m) ^ n - (1 + m) ^ k) / ((1 + m) ^ n - 1) := by
  have hq : (1 : ℚ) < 1 + m := by linarith
  have hD : (0 : ℚ) < (1 + m) ^ n - 1 := sub_pos.mpr (one_lt_pow₀ hq hn)
  have hD' : ((1 + m) ^ n - 1 : ℚ) ≠ 0 := ne_of_gt hD
  induction k with
  | zero =>
    rw [ubal, pow_zero]
    field_simp
  | succ k ih =>
    rw [ubal, ih, pow_succ]
    field_simp
    ring

/-- Nonnegativity of the annuity balance up to the term. -/
lemma ubal_annuity_nonneg (P m : ℚ) (n : ℕ) (hP : 0 ≤ P) (hm : 0 < m) (hn : n ≠ 0)
    (k : ℕ) (hk : k ≤ n) :
    0 ≤ ubal (P * (m * (1 + m) ^ n) / ((1 + m) ^ n - 1)) m P k := by
  have hq : (1 : ℚ) < 1 + m := by linarith
  have hD : (0 : ℚ) < (1 + m) ^ n - 1 := sub_pos.mpr (one_lt_pow₀ hq hn)
  rw [ubal_annuity P m n hm hn k]
  have hpow : (1 + m) ^ k ≤ (1 + m) ^ n := pow_le_pow_right₀ hq.le hk
  exact div_nonneg (mul_nonneg hP (sub_nonneg.mpr hpow)) hD.le

/-- The annuity balance is exactly 0 at the end of the term. -/
lemma ubal_annuity_final (P m : ℚ) (n : ℕ) (hm : 0 < m) (hn : n ≠ 0) :
    ubal (P * (m * (1 + m) ^ n) / ((1 + m) ^ n - 1)) m P n = 0 := by
  rw [ubal_annuity P m n hm hn n, sub_self, mul_zero, zero_div]

/-- The annuity balance is non-increasing month over month. -/
lemma ubal_annuity_mono (P m : ℚ) (n : ℕ) (hP : 0 ≤ P) (hm : 0 < m) (hn : n ≠ 0) (k : ℕ) :
    ubal (P * (m * (1 + m) ^ n) / ((1 + m) ^ n - 1)) m P (k + 1) ≤
      ubal (P * (m * (1 + m) ^ n) / ((1 + m) ^ n - 1)) m P k := by
  have hq : (1 : ℚ) < 1 + m := by linarith
  have hD : (0 : ℚ) < (1 + m) ^ n - 1 := sub_pos.mpr (one_lt_pow₀ hq hn)
  rw [ubal_annuity P m n hm hn k, ubal_annuity P m n hm hn (k + 1)]
  have hpow : (1 + m) ^ k ≤ (1 + m) ^ (k + 1) := pow_le_pow_right₀ hq.le (by omega)
  rw [div_le_div_iff_of_pos_right hD]
  exact mul_le_mul_of_nonneg_left (by linarith) hP

/-- The three balance facts for the actual schedule parameters: with
`principal ≥ 0`, `rate ≥ 0`, `years > 0` the unclamped balance stays
nonnegative through the term, is exactly 0 at the end of the term, and is
non-increasing month over month. -/
lemma schedule_ubal_props (P annualRate : ℚ) (years : ℕ)
    (hP : 0 ≤ P) (hr : 0 ≤ annualRate) (hy : 0 < years) :
    (∀ j, j ≤ years * 12 →
      0 ≤ ubal (calculateMortgagePayment P annualRate years) (annualRate / 100 / 12) P j) ∧
    ubal (calculateMortgagePayment P annualRate years) (annualRate / 100 / 12) P
      (years * 12) = 0 ∧
    (∀ k, ubal (calculateMortgagePayment P annualRate years) (annualRate / 100 / 12) P (k + 1)
      ≤ ubal (calculateMortgagePayment P annualRate years) (annualRate / 100 / 12) P k) := by
  rcases eq_or_lt_of_le hP with hP0 | hPpos
  · -- P = 0: the payment is 0 and the balance is constantly 0
    have hpay : calculateMortgagePayment P annualRate years = 0 := by
      rw [calculateMortgagePayment, if_pos (le_of_eq hP0.symm)]
    rw [hpay, ← hP0]
    exact ⟨fun j _ => le_of_eq (ubal_zero _ j).symm, ubal_zero _ _,
      fun k => le_of_eq (by rw [ubal_zero, ubal_zero])⟩
  · rcases eq_or_lt_of_le hr with hr0 | hrpos
    · -- annualRate = 0: straight-line payment P / (years·12), monthly rate 0
      have hm : annualRate / 100 / 12 = 0 := by rw [← hr0]; norm_num
      have hpay : calculateMortgagePayment P annualRate years =
          P / ((years : ℚ) * 12) := by
        rw [calculateMortgagePayment, if_neg (not_le.mpr hPpos), if_pos (le_of_eq hr0.symm)]
      have hypos : (0 : ℚ) < (years : ℚ) * 12 := by
        have : (0 : ℚ) < (years : ℚ) := by exact_mod_cast hy
        linarith
      have hpaynn : 0 ≤ P / ((years : ℚ) * 12) := div_nonneg hPpos.le hypos.le
      have hcancel : ((years : ℚ) * 12) * (P / ((years : ℚ) * 12)) = P :=
        mul_div_cancel₀ P (ne_of_gt hypos)
      rw [hm, hpay]
      refine ⟨fun j hj => ?_, ?_, fun k => ?_⟩
      · rw [ubal_rate_zero]
        have hjle : (j : ℚ) ≤ (years : ℚ) * 12 := by
          have := (Nat.cast_le (α := ℚ)).mpr hj
          push_cast at this
          linarith
        have := mul_le_mul_of_nonneg_right hjle hpaynn
        linarith [hcancel]
      · rw [ubal_rate_zero]
        have : ((years * 12 : ℕ) : ℚ) = (years : ℚ) * 12 := by push_cast; ring
        rw [this, hcancel]
        ring
      · rw [ubal_rate_zero, ubal_rate_zero]
        push_cast
        linarith
    · -- annualRate > 0: annuity payment
      have hm : 0 < annualRate / 100 / 12 := by positivity
      have hn : years * 12 ≠ 0 := by omega
      have hpay : calculateMortgagePayment P annualRate years =
          P * ((annualRate / 100 / 12) * (1 + annualRate / 100 / 12) ^ (years * 12)) /
            ((1 + annualRate / 100 / 12) ^ (years * 12) - 1) := by
        rw [calculateMortgagePayment, if_neg (not_le.mpr hPpos), if_neg (not_le.mpr hrpos)]
      rw [hpay]
      exact ⟨fun j hj => ubal_annuity_nonneg P _ _ hP hm hn j hj,
        ubal_annuity_final P _ _ hm hn,
        fun k => ubal_annuity_mono P _ _ hP hm hn k⟩

/-- C1: for principal ≥ 0, rate ≥ 0, years > 0, the amortization schedule
has exactly years×12 rows, the final row's balance is exactly 0, and the
principal portions over all rows sum exactly to the principal (the exact
rational forms of the spec's within-ε statements). -/
theorem generateAmortizationSchedule_totals (principal annualRate : ℚ) (years : ℕ)
    (startDate : SDate) (hP : 0 ≤ principal) (hr : 0 ≤ annualRate) (hy : 0 < years) :
    (generateAmortizationSchedule principal annualRate years startDate).rows.length =
      years * 12 ∧
    ((generateAmortizationSchedule principal annualRate years startDate).rows.getLast?).map
      AmortizationRow.balance = some 0 ∧
    ((generateAmortizationSchedule principal annualRate years startDate).rows.map
      AmortizationRow.principal).sum = principal := by
  obtain ⟨Hnn, Hfin, _⟩ := schedule_ubal_props principal annualRate years hP hr hy
  obtain ⟨hsum, hidx⟩ := amortRows_spec (calculateMortgagePayment principal annualRate years)
    (annualRate / 100 / 12) (years * 12) 1 principal 0 0 Hnn
  have hlen : (generateAmortizationSchedule principal annualRate years startDate).rows.length =
      years * 12 := amortRows_length _ _ _ _ _ _ _
  refine ⟨hlen, ?_, ?_⟩
  · rw [List.getLast?_eq_getElem?, hlen]
    rcases hsome : (generateAmortizationSchedule principal annualRate years
        startDate).rows[years * 12 - 1]? with _ | r
    · have hnone := List.getElem?_eq_none_iff.mp hsome
      rw [hlen] at hnone
      omega
    · rw [Option.map_some']
      have hbal := hidx (years * 12 - 1) r hsome
      have heq : years * 12 - 1 + 1 = years * 12 := by omega
      rw [heq] at hbal
      rw [hbal, Hfin]
  · show ((amortRows (calculateMortgagePayment principal annualRate years)
        (annualRate / 100 / 12) (years * 12) 1 principal 0 0).map
        AmortizationRow.principal).sum = principal
    rw [hsum, Hfin, sub_zero]

/-- Witness for C1 at principal 1200, rate 0, term 1 year. -/
theorem generateAmortizationSchedule_totals_witness :
    (0 : ℚ) ≤ 1200 ∧ (0 : ℚ) ≤ 0 ∧ 0 < 1 ∧
      ((generateAmortizationSchedule 1200 0 1 ⟨2026, 0⟩).rows.length = 1 * 12 ∧
        ((generateAmortizationSchedule 1200 0 1 ⟨2026, 0⟩).rows.getLast?).map
          AmortizationRow.balance = some 0 ∧
        ((generateAmortizationSchedule 1200 0 1 ⟨2026, 0⟩).rows.map
          AmortizationRow.principal).sum = 1200) :=
  ⟨by norm_num, le_refl 0, by norm_num,
    generateAmortizationSchedule_totals 1200 0 1 ⟨2026, 0⟩ (by norm_num) (le_refl 0)
      (by norm_num)⟩

/-- C2: for principal ≥ 0, rate ≥ 0, years > 0, the balances of the
schedule are non-increasing from each row to the next and never negative,
and principal + interest = payment holds exactly for every row (so in
particular within rounding at the final row). -/
theorem generateAmortizationSchedule_invariants (principal annualRate : ℚ) (years : ℕ)
    (startDate : SDate) (hP : 0 ≤ principal) (hr : 0 ≤ annualRate) (hy : 0 < years) :
    (∀ (i : ℕ) (r1 r2 : AmortizationRow),
      (generateAmortizationSchedule principal annualRate years startDate).rows[i]? =
        some r1 →
      (generateAmortizationSchedule principal annualRate years startDate).rows[i + 1]? =
        some r2 →
      r2.balance ≤ r1.balance) ∧
    (∀ r ∈ (generateAmortizationSchedule principal annualRate years startDate).rows,
      0 ≤ r.balance) ∧
    (∀ r ∈ (generateAmortizationSchedule principal annualRate years startDate).rows,
      r.principal + r.interest = r.payment) := by
  obtain ⟨Hnn, _, Hmono⟩ := schedule_ubal_props principal annualRate years hP hr hy
  obtain ⟨_, hidx⟩ := amortRows_spec (calculateMortgagePayment principal annualRate years)
    (annualRate / 100 / 12) (years * 12) 1 principal 0 0 Hnn
  refine ⟨fun i r1 r2 h1 h2 => ?_, fun r hmem => ?_, fun r hmem => ?_⟩
  · rw [hidx i r1 h1, hidx (i + 1) r2 h2]
    exact Hmono (i + 1)
  · exact (amortRows_basic _ _ _ _ _ _ _ r hmem).1
  · obtain ⟨_, hpay, hsplit⟩ := amortRows_basic _ _ _ _ _ _ _ r hmem
    rw [hpay]
    exact hsplit

/-- Witness for C2 at principal 1200, rate 0, term 1 year. -/
theorem generateAmortizationSchedule_invariants_witness :
    (0 : ℚ) ≤ 1200 ∧ (0 : ℚ) ≤ 0 ∧ 0 < 1 ∧
      ((∀ (i : ℕ) (r1 r2 : AmortizationRow),
        (generateAmortizationSchedule 1200 0 1 ⟨2026, 0⟩).rows[i]? = some r1 →
        (generateAmortizationSchedule 1200 0 1 ⟨2026, 0⟩).rows[i + 1]? = some r2 →
        r2.balance ≤ r1.balance) ∧
      (∀ r ∈ (generateAmortizationSchedule 1200 0 1 ⟨2026, 0⟩).rows, 0 ≤ r.balance) ∧
      (∀ r ∈ (generateAmortizationSchedule 1200 0 1 ⟨2026, 0⟩).rows,
        r.principal + r.interest = r.payment)) :=
  ⟨by norm_num, le_refl 0, by norm_num,
    generateAmortizationSchedule_invariants 1200 0 1 ⟨2026, 0⟩ (by norm_num) (le_refl 0)
      (by norm_num)⟩

/-! ## Monotonicity of the annuity payment in the rate -/

/-- With a zero-length term every branch of the payment formula divides by
zero, which is 0 in `ℚ`. -/
lemma calculateMortgagePayment_years_zero (principal annualRate : ℚ) :
    calculateMortgagePayment principal annualRate 0 = 0 := by
  rw [calculateMortgagePayment]
  split
  · rfl
  · split
    · norm_num
    · norm_num

/-- Straight-line payment is at most the annuity payment at any positive
monthly rate: `P/n ≤ P·m·(1+m)^n / ((1+m)^n − 1)`. -/
lemma straight_le_annuity (P m : ℚ) (n : ℕ) (hP : 0 ≤ P) (hm : 0 < m) (hn : n ≠ 0) :
    P / (n : ℚ) ≤ P * (m * (1 + m) ^ n) / ((1 + m) ^ n - 1) := by
  have hq : (1 : ℚ) < 1 + m := by linarith
  have hD : (0 : ℚ) < (1 + m) ^ n - 1 := sub_pos.mpr (one_lt_pow₀ hq hn)
  have hnQ : (0 : ℚ) < (n : ℚ) := by exact_mod_cast Nat.pos_of_ne_zero hn
  rw [div_le_div_iff₀ hnQ hD]
  have hgeom : (∑ i ∈ Finset.range n, (1 + m) ^ i) * m = (1 + m) ^ n - 1 := by
    have := geom_sum_mul (1 + m) n
    simpa using this
  have hsum : (∑ i ∈ Finset.range n, (1 + m) ^ i) ≤ (n : ℚ) * (1 + m) ^ n := by
    calc (∑ i ∈ Finset.range n, (1 + m) ^ i)
        ≤ ∑ _i ∈ Finset.range n, (1 + m) ^ n :=
          Finset.sum_le_sum fun i hi =>
            pow_le_pow_right₀ hq.le (Nat.le_of_lt (Finset.mem_range.mp hi))
      _ = (n : ℚ) * (1 + m) ^ n := by
          rw [Finset.sum_const, Finset.card_range, nsmul_eq_mul]
  calc P * ((1 + m) ^ n - 1) = P * ((∑ i ∈ Finset.range n, (1 + m) ^ i) * m) := by
        rw [hgeom]
    _ ≤ P * (((n : ℚ) * (1 + m) ^ n) * m) :=
        mul_le_mul_of_nonneg_left (mul_le_mul_of_nonneg_right hsum hm.le) hP
    _ = P * (m * (1 + m) ^ n) * (n : ℚ) := by ring

/-- The annuity payment is monotone in the monthly rate. -/
lemma annuity_mono (P m1 m2 : ℚ) (n : ℕ) (hP : 0 ≤ P) (hm1 : 0 < m1) (hm12 : m1 ≤ m2)
    (hn : n ≠ 0) :
    P * (m1 * (1 + m1) ^ n) / ((1 + m1) ^ n - 1) ≤
      P * (m2 * (1 + m2) ^ n) / ((1 + m2) ^ n - 1) := by
  have hm2 : 0 < m2 := lt_of_lt_of_le hm1 hm12
  have hq1 : (1 : ℚ) < 1 + m1 := by linarith
  have hq2 : (1 : ℚ) < 1 + m2 := by linarith
  have hq12 : (1 + m1 : ℚ) ≤ 1 + m2 := by linarith
  have hD1 : (0 : ℚ) < (1 + m1) ^ n - 1 := sub_pos.mpr (one_lt_pow₀ hq1 hn)
  have hD2 : (0 : ℚ) < (1 + m2) ^ n - 1 := sub_pos.mpr (one_lt_pow₀ hq2 hn)
  rw [div_le_div_iff₀ hD1 hD2]
  have hgeom1 : (∑ i ∈ Finset.range n, (1 + m1) ^ i) * m1 = (1 + m1) ^ n - 1 := by
    have := geom_sum_mul (1 + m1) n
    simpa using this
  have hgeom2 : (∑ i ∈ Finset.range n, (1 + m2) ^ i) * m2 = (1 + m2) ^ n - 1 := by
    have := geom_sum_mul (1 + m2) n
    simpa using this
  have hcore : (1 + m1) ^ n * (∑ i ∈ Finset.range n, (1 + m2) ^ i) ≤
      (1 + m2) ^ n * (∑ i ∈ Finset.range n, (1 + m1) ^ i) := by
    rw [Finset.mul_sum, Finset.mul_sum]
    apply Finset.sum_le_sum
    intro i hi
    have hin : i ≤ n := Nat.le_of_lt (Finset.mem_range.mp hi)
    have hni : n - i + i = n := Nat.sub_add_cancel hin
    have hpowle : (1 + m1) ^ (n - i) ≤ (1 + m2) ^ (n - i) :=
      pow_le_pow_left₀ (by linarith) hq12 (n - i)
    have hprod : (0 : ℚ) ≤ (1 + m1) ^ i * (1 + m2) ^ i := by positivity
    calc (1 + m1) ^ n * (1 + m2) ^ i
        = (1 + m1) ^ (n - i) * ((1 + m1) ^ i * (1 + m2) ^ i) := by
          rw [show (1 + m1 : ℚ) ^ (n - i) * ((1 + m1) ^ i * (1 + m2) ^ i) =
            ((1 + m1) ^ (n - i) * (1 + m1) ^ i) * (1 + m2) ^ i by ring, ← pow_add, hni]
      _ ≤ (1 + m2) ^ (n - i) * ((1 + m1) ^ i * (1 + m2) ^ i) :=
          mul_le_mul_of_nonneg_right hpowle hprod
      _ = (1 + m2) ^ n * (1 + m1) ^ i := by
          rw [show (1 + m2 : ℚ) ^ (n - i) * ((1 + m1) ^ i * (1 + m2) ^ i) =
            ((1 + m2) ^ (n - i) * (1 + m2) ^ i) * (1 + m1) ^ i by ring, ← pow_add, hni]
  calc P * (m1 * (1 + m1) ^ n) * ((1 + m2) ^ n - 1)
      = P * m1 * m2 * ((1 + m1) ^ n * (∑ i ∈ Finset.range n, (1 + m2) ^ i)) := by
        rw [← hgeom2]; ring
    _ ≤ P * m1 * m2 * ((1 + m2) ^ n * (∑ i ∈ Finset.range n, (1 + m1) ^ i)) :=
        mul_le_mul_of_nonneg_left hcore (by positivity)
    _ = P * (m2 * (1 + m2) ^ n) * ((1 + m1) ^ n - 1) := by
        rw [← hgeom1]; ring

/-- `calculateMortgagePayment` is monotone non-decreasing in the annual
rate, for any principal and term. -/
lemma calculateMortgagePayment_mono (principal : ℚ) (years : ℕ) (x y : ℚ) (hxy : x ≤ y) :
    calculateMortgagePayment principal x years ≤ calculateMortgagePayment principal y years := by
  by_cases hP : principal ≤ 0
  · rw [calculateMortgagePayment, calculateMortgagePayment, if_pos hP, if_pos hP]
  by_cases hy0 : years = 0
  · subst hy0
    rw [calculateMortgagePayment_years_zero, calculateMortgagePayment_years_zero]
  push_neg at hP
  have hn : years * 12 ≠ 0 := by omega
  by_cases hyneg : y ≤ 0
  · have hxneg : x ≤ 0 := le_trans hxy hyneg
    rw [calculateMortgagePayment, calculateMortgagePayment, if_neg (not_le.mpr hP),
      if_neg (not_le.mpr hP), if_pos hxneg, if_pos hyneg]
  push_neg at hyneg
  have hm2 : 0 < y / 100 / 12 := by positivity
  by_cases hxneg : x ≤ 0
  · rw [calculateMortgagePayment, calculateMortgagePayment, if_neg (not_le.mpr hP),
      if_neg (not_le.mpr hP), if_pos hxneg, if_neg (not_le.mpr hyneg)]
    show principal / ((years : ℚ) * 12) ≤
      principal * (y / 100 / 12 * (1 + y / 100 / 12) ^ (years * 12)) /
        ((1 + y / 100 / 12) ^ (years * 12) - 1)
    have hcast : ((years * 12 : ℕ) : ℚ) = (years : ℚ) * 12 := by push_cast; ring
    rw [← hcast]
    exact straight_le_annuity principal (y / 100 / 12) (years * 12) hP.le hm2 hn
  push_neg at hxneg
  have hm1 : 0 < x / 100 / 12 := by positivity
  have hm12 : x / 100 / 12 ≤ y / 100 / 12 := by linarith
  rw [calculateMortgagePayment, calculateMortgagePayment, if_neg (not_le.mpr hP),
    if_neg (not_le.mpr hP), if_neg (not_le.mpr hxneg), if_neg (not_le.mpr hyneg)]
  exact annuity_mono principal (x / 100 / 12) (y / 100 / 12) (years * 12) hP.le hm1 hm12 hn

/-- C7: for principal ≥ 0 and a strictly increasing list of rate
increments, the stress-test results have non-decreasing monthly payment and
non-decreasing total monthly housing from each result to the next. -/
theorem stressTestScenario_monotone (principal baseRate : ℚ) (loanTerm : ℕ)
    (annualPropertyTax annualInsurance monthlyUtilities grossMonthlyIncome : ℚ)
    (otherDebt : DebtObligations) (rateIncrements : List ℚ)
    (hP : 0 ≤ principal) (hinc : List.Chain' (· < ·) rateIncrements) :
    List.Chain' (fun a b => a.monthlyPayment ≤ b.monthlyPayment ∧
        a.totalMonthlyHousing ≤ b.totalMonthlyHousing)
      (stressTestScenario principal baseRate loanTerm annualPropertyTax annualInsurance
        monthlyUtilities grossMonthlyIncome otherDebt rateIncrements) := by
  rw [stressTestScenario, List.chain'_map]
  refine List.Chain'.imp ?_ hinc
  intro a b hab
  have hpay : calculateMortgagePayment principal (baseRate + a) loanTerm ≤
      calculateMortgagePayment principal (baseRate + b) loanTerm :=
    calculateMortgagePayment_mono principal loanTerm (baseRate + a) (baseRate + b)
      (by linarith)
  refine ⟨hpay, ?_⟩
  show calculateMonthlyHousing (calculateMortgagePayment principal (baseRate + a) loanTerm)
      annualPropertyTax annualInsurance monthlyUtilities ≤
    calculateMonthlyHousing (calculateMortgagePayment principal (baseRate + b) loanTerm)
      annualPropertyTax annualInsurance monthlyUtilities
  rw [calculateMonthlyHousing, calculateMonthlyHousing]
  linarith

/-- Witness for C7: three rising rate shocks on a concrete scenario. -/
theorem stressTestScenario_monotone_witness :
    (0 : ℚ) ≤ 100000 ∧ List.Chain' (· < ·) [(1 : ℚ), 2, 3] ∧
      List.Chain' (fun a b => a.monthlyPayment ≤ b.monthlyPayment ∧
          a.totalMonthlyHousing ≤ b.totalMonthlyHousing)
        (stressTestScenario 100000 5 30 2000 1000 200 8000 ⟨0, 0, 0, 0, 0⟩ [1, 2, 3]) :=
  ⟨by norm_num, by norm_num [List.chain'_cons, List.chain'_singleton],
    stressTestScenario_monotone 100000 5 30 2000 1000 200 8000 ⟨0, 0, 0, 0, 0⟩ [1, 2, 3]
      (by norm_num) (by norm_num [List.chain'_cons, List.chain'_singleton])⟩
